import Mathlib

/-!
Shallow embedding of `pyJoules/energy_meter.py`: the trace state machine
(`EnergyState` linked chain, the `EnergyMeter` controller, sample derivation).

Modelling conventions:
* Python floats (timestamps, energy counter values) are modelled as `ℚ`;
  the code only subtracts them.
* `time.perf_counter()` and `device.get_energy()` are ambient effects; every
  operation that snapshots takes the observed timestamp and the list of
  per-device readings as explicit arguments.
* An `EnergyDevice` is reduced to the one piece of state the core reads
  besides `get_energy()`: its ordered list of configured domains,
  `get_configured_domains()`, stable per the collaborator contract.  Domain
  keys are taken as `String` directly, so Python's `str(key)` is the identity.
* Exceptions become an explicit error type and `Except`.
* A Python `dict` is modelled as an insertion-ordered association list where
  assigning to a present key overwrites in place.
-/

/-- The exception taxonomy of `energy_meter.py`. -/
inductive PyJoulesException : Type where
  | noNextState        -- NoNextStateException
  | stateIsNotFinal    -- StateIsNotFinalError
  | notStarted         -- EnergyMeterNotStartedError
  | notStopped         -- EnergyMeterNotStoppedError
  | sampleNotFound     -- SampleNotFoundError
  deriving DecidableEq, Repr

/-- A node of the trace: `EnergyState.__init__` stores `timestamp`, `tag`,
`values` and initialises `next_state = None`; the only later mutation is the
single `add_next_state` assignment, so the chain is a nested inductive. -/
inductive EnergyState : Type where
  | mk (timestamp : ℚ) (tag : String) (values : List (List ℚ))
       (next_state : Option EnergyState)
  deriving Repr

namespace EnergyState

def timestamp : EnergyState → ℚ
  | .mk ts _ _ _ => ts

def tag : EnergyState → String
  | .mk _ tg _ _ => tg

def values : EnergyState → List (List ℚ)
  | .mk _ _ vs _ => vs

def next_state : EnergyState → Option EnergyState
  | .mk _ _ _ nx => nx

/-- `EnergyState.is_last`. -/
def is_last (s : EnergyState) : Bool :=
  s.next_state.isNone

/-- `EnergyState.add_next_state`: raises `StateIsNotFinalError` when a
successor already exists, otherwise sets `next_state` (the sole mutation,
returned here as the updated node). -/
def add_next_state (s : EnergyState) (t : EnergyState) :
    Except PyJoulesException EnergyState :=
  match s with
  | .mk _ _ _ (some _) => Except.error .stateIsNotFinal
  | .mk ts tg vs none => Except.ok (.mk ts tg vs (some t))

/-- `EnergyState.compute_duration`. -/
def compute_duration (s : EnergyState) : Except PyJoulesException ℚ :=
  match s.next_state with
  | none => Except.error .noNextState
  | some n => Except.ok (n.timestamp - s.timestamp)

end EnergyState

/-- The flat delta sequence of `compute_energy`: element-wise
`v_next - v_current` per device, all devices concatenated in order
(`energy += [...]` inside the zip over device value lists). -/
def flatEnergyDeltas (nextValues currValues : List (List ℚ)) : List ℚ :=
  (List.zipWith (fun nv cv => List.zipWith (fun a b => a - b) nv cv)
    nextValues currValues).flatten

/-- One step of Python dict assignment `d[k] = v`: overwrite in place when
the key is present, append otherwise. -/
def dictInsert : List (String × ℚ) → String → ℚ → List (String × ℚ)
  | [], k, v => [(k, v)]
  | (k', v') :: rest, k, v =>
      if k' = k then (k', v) :: rest else (k', v') :: dictInsert rest k v

/-- The `values_dict` loop of `compute_energy`: fold dict assignment over
`zip(energy, domains)` pairs `(value, key)`. -/
def dictOfPairs (ps : List (ℚ × String)) : List (String × ℚ) :=
  ps.foldl (fun d p => dictInsert d p.2 p.1) []

/-- Python dict lookup on the association-list model. -/
def lookupDict : List (String × ℚ) → String → Option ℚ
  | [], _ => none
  | (k', v) :: rest, k => if k' = k then some v else lookupDict rest k

namespace EnergyState

/-- `EnergyState.compute_energy`: guard on the successor, then build the
dict from the flattened deltas zipped with the supplied domain keys. -/
def compute_energy (s : EnergyState) (domains : List String) :
    Except PyJoulesException (List (String × ℚ)) :=
  match s.next_state with
  | none => Except.error .noNextState
  | some n =>
      Except.ok (dictOfPairs ((flatEnergyDeltas n.values s.values).zip domains))

/-- The tail of the chain rooted at `s`; in the Python object graph this is
what the controller's `_last_state` pointer designates (the controller only
ever appends at `_last_state`, which therefore always is the tail). -/
def lastState : EnergyState → EnergyState
  | .mk ts tg vs none => .mk ts tg vs none
  | .mk _ _ _ (some n) => lastState n

/-- Append a node at the tail: the effect of
`self._last_state.add_next_state(new_state)` on the chain rooted at
`first_state` (the tail's `next_state` is `None`, so the call succeeds). -/
def appendLast : EnergyState → EnergyState → EnergyState
  | .mk ts tg vs none, t => .mk ts tg vs (some t)
  | .mk ts tg vs (some n), t => .mk ts tg vs (some (appendLast n t))

/-- Number of nodes in the chain rooted at `s`. -/
def chainLength : EnergyState → ℕ
  | .mk _ _ _ none => 1
  | .mk _ _ _ (some n) => chainLength n + 1

/-- The adjacent pairs (node, successor) of the chain, in trace order. -/
def statePairs : EnergyState → List (EnergyState × EnergyState)
  | .mk _ _ _ none => []
  | .mk ts tg vs (some n) => (EnergyState.mk ts tg vs (some n), n) :: statePairs n

end EnergyState

/-- The one piece of device state read by the core besides `get_energy()`:
`get_configured_domains()`, stable across calls (§6 collaborator contract). -/
structure EnergyDevice where
  configured_domains : List String
  deriving DecidableEq, Repr

/-- `reduce(operator.add, [device.get_configured_domains() for device in devices])`:
for a non-empty device list this is the concatenation of the per-device domain
lists in device order.  (With zero devices the Python `reduce` has no initial
value and raises `TypeError`; theorems about iteration therefore assume at
least one device.) -/
def allDomainKeys (devices : List EnergyDevice) : List String :=
  (devices.map (·.configured_domains)).flatten

/-- `EnergyMeter`'s own state: the monitored devices, the default tag, and the
trace rooted at `_first_state` (`None` before any `start()`).  `_last_state`
is not stored: the controller only ever appends at it, so it invariantly
denotes the tail of the chain, recovered here by `EnergyState.lastState`. -/
structure EnergyMeter where
  devices : List EnergyDevice
  default_tag : String
  first_state : Option EnergyState

namespace EnergyMeter

/-- `EnergyMeter._measure_new_state`: snapshot `(ts, vals)` observed from the
clock and the devices is passed in explicitly; the tag falls back to
`default_tag` when `None`. -/
def measure_new_state (m : EnergyMeter) (tag : Option String) (ts : ℚ)
    (vals : List (List ℚ)) : EnergyState :=
  .mk ts (tag.getD m.default_tag) vals none

/-- `EnergyMeter.start`: a fresh snapshot becomes both `_first_state` and
`_last_state`, discarding any prior trace.  Never fails. -/
def start (m : EnergyMeter) (tag : Option String) (ts : ℚ)
    (vals : List (List ℚ)) : EnergyMeter :=
  { m with first_state := some (m.measure_new_state tag ts vals) }

/-- `EnergyMeter.record`: `EnergyMeterNotStartedError` when `_first_state is
None`, otherwise append the new snapshot at `_last_state` and advance it. -/
def record (m : EnergyMeter) (tag : Option String) (ts : ℚ)
    (vals : List (List ℚ)) : Except PyJoulesException EnergyMeter :=
  match m.first_state with
  | none => Except.error .notStarted
  | some fs =>
      Except.ok { m with
        first_state := some (fs.appendLast (m.measure_new_state tag ts vals)) }

/-- `EnergyMeter.stop`: like `record` but with the reserved sentinel tag. -/
def stop (m : EnergyMeter) (ts : ℚ) (vals : List (List ℚ)) :
    Except PyJoulesException EnergyMeter :=
  match m.first_state with
  | none => Except.error .notStarted
  | some fs =>
      Except.ok { m with
        first_state := some (fs.appendLast (.mk ts "__stop__" vals none)) }

/-- The Stopped condition tested by `get_sample`/`__iter__`:
`self._last_state.tag == '__stop__'` (meaningful only once started). -/
def isStopped (m : EnergyMeter) : Bool :=
  match m.first_state with
  | none => false
  | some fs => fs.lastState.tag == "__stop__"

end EnergyMeter

/-- One derived sample: `EnergySample(timestamp, tag, duration, energy)`. -/
structure EnergySample where
  timestamp : ℚ
  tag : String
  duration : ℚ
  energy : List (String × ℚ)
  deriving DecidableEq, Repr

/-- Exhausting a `SampleIterator` whose cursor sits at the given node:
each `__next__` call stops at a node with no successor, otherwise recomputes
`domains` from the meter's devices, builds the `EnergySample` from
`compute_duration`/`compute_energy`, and advances the cursor.  (The catch-all
branch is unreachable: with a successor present both computations succeed.) -/
def drainFrom (m : EnergyMeter) (s : EnergyState) : List EnergySample :=
  match s with
  | .mk _ _ _ none => []
  | .mk ts tg vs (some n) =>
      match (EnergyState.mk ts tg vs (some n)).compute_duration,
            (EnergyState.mk ts tg vs (some n)).compute_energy
              (allDomainKeys m.devices) with
      | Except.ok dur, Except.ok en =>
          { timestamp := ts, tag := tg, duration := dur, energy := en }
            :: drainFrom m n
      | _, _ => []
termination_by structural s

namespace EnergyMeter

/-- `EnergyMeter.__iter__` followed by exhausting the fresh `SampleIterator`:
the two guards, then the full yielded sequence. -/
def iter (m : EnergyMeter) : Except PyJoulesException (List EnergySample) :=
  match m.first_state with
  | none => Except.error .notStarted
  | some fs =>
      if fs.lastState.tag == "__stop__" then Except.ok (drainFrom m fs)
      else Except.error .notStopped

end EnergyMeter

/-- The `for sample in self` loop of `get_sample`: first sample whose tag
matches, else `SampleNotFoundError`. -/
def findTagged (tag : String) : List EnergySample → Except PyJoulesException EnergySample
  | [] => Except.error .sampleNotFound
  | s :: rest => if s.tag == tag then Except.ok s else findTagged tag rest

namespace EnergyMeter

/-- `EnergyMeter.get_sample`: the two state guards, then the linear scan. -/
def get_sample (m : EnergyMeter) (tag : String) :
    Except PyJoulesException EnergySample :=
  match m.first_state with
  | none => Except.error .notStarted
  | some fs =>
      if fs.lastState.tag == "__stop__" then findTagged tag (drainFrom m fs)
      else Except.error .notStopped

end EnergyMeter

/-- A lifecycle call on the controller together with the snapshot the ambient
clock/devices would hand it. -/
inductive MeterOp : Type where
  | start (tag : Option String) (ts : ℚ) (vals : List (List ℚ))
  | record (tag : Option String) (ts : ℚ) (vals : List (List ℚ))
  | stop (ts : ℚ) (vals : List (List ℚ))

def applyOp (m : EnergyMeter) : MeterOp → Except PyJoulesException EnergyMeter
  | .start tag ts vals => Except.ok (m.start tag ts vals)
  | .record tag ts vals => m.record tag ts vals
  | .stop ts vals => m.stop ts vals

/-- Run a sequence of lifecycle calls, aborting at the first exception. -/
def runOps : EnergyMeter → List MeterOp → Except PyJoulesException EnergyMeter
  | m, [] => Except.ok m
  | m, op :: ops =>
      match applyOp m op with
      | Except.error e => Except.error e
      | Except.ok m' => runOps m' ops

/-- The sample derived from one adjacent pair `(state, successor)` with the
given flat domain-key list: timestamp and tag of the starting state, duration
`successor.timestamp - timestamp`, energy the dict built from the flattened
per-device deltas zipped with the keys. -/
def sampleOfPair (keys : List String) (p : EnergyState × EnergyState) :
    EnergySample :=
  { timestamp := p.1.timestamp
    tag := p.1.tag
    duration := p.2.timestamp - p.1.timestamp
    energy := dictOfPairs ((flatEnergyDeltas p.2.values p.1.values).zip keys) }


/-- Modelled from the spec (§4.3 SampleProducer): the producer walks the chain
from `first_state`; a node with no successor ends the sequence, a node with a
successor yields the sample for its interval; the domain keys are computed
once — the concatenation, in device order, of each device's configured domain
list — and the same key list is used for every yielded sample. -/
def specSamplesOnce (keys : List String) (s : EnergyState) : List EnergySample :=
  match s with
  | .mk _ _ _ none => []
  | .mk ts tg vs (some n) =>
      { timestamp := ts, tag := tg, duration := n.timestamp - ts,
        energy := dictOfPairs ((flatEnergyDeltas n.values vs).zip keys) }
        :: specSamplesOnce keys n
termination_by structural s

/-- Concrete one-device, one-domain example (spec §8 scenario): used to
instantiate theorems on explicit inputs. -/
def exDevice : EnergyDevice := ⟨["D"]⟩

/-- The chain left by `start("a")` at t=0 reading `[0]`, `record("b")` at t=1
reading `[5]`, `stop()` at t=2 reading `[10]`. -/
def exStopChain : EnergyState :=
  .mk 0 "a" [[0]] (some (.mk 1 "b" [[5]] (some (.mk 2 "__stop__" [[10]] none))))

/-- The stopped example meter holding `exStopChain`. -/
def exStopMeter : EnergyMeter := ⟨[exDevice], "", some exStopChain⟩

/-! ### Chain lemmas -/

namespace EnergyState

@[simp] theorem timestamp_mk (ts : ℚ) (tg : String) (vs : List (List ℚ))
    (nx : Option EnergyState) : (EnergyState.mk ts tg vs nx).timestamp = ts := rfl

@[simp] theorem tag_mk (ts : ℚ) (tg : String) (vs : List (List ℚ))
    (nx : Option EnergyState) : (EnergyState.mk ts tg vs nx).tag = tg := rfl

@[simp] theorem values_mk (ts : ℚ) (tg : String) (vs : List (List ℚ))
    (nx : Option EnergyState) : (EnergyState.mk ts tg vs nx).values = vs := rfl

@[simp] theorem next_state_mk (ts : ℚ) (tg : String) (vs : List (List ℚ))
    (nx : Option EnergyState) : (EnergyState.mk ts tg vs nx).next_state = nx := rfl

theorem chainLength_pos (s : EnergyState) : 0 < s.chainLength := by
  cases s with
  | mk ts tg vs nx => cases nx <;> simp [chainLength]

theorem lastState_appendLast : (s t : EnergyState) →
    (s.appendLast t).lastState = t.lastState
  | .mk ts tg vs none, t => by simp [appendLast, lastState]
  | .mk ts tg vs (some n), t => by
    simp only [appendLast, lastState]
    exact lastState_appendLast n t

theorem chainLength_appendLast : (s t : EnergyState) →
    (s.appendLast t).chainLength = s.chainLength + t.chainLength
  | .mk ts tg vs none, t => by
    simp [appendLast, chainLength]; omega
  | .mk ts tg vs (some n), t => by
    simp only [appendLast, chainLength, chainLength_appendLast n t]
    omega

theorem statePairs_length : (s : EnergyState) →
    s.statePairs.length = s.chainLength - 1
  | .mk _ _ _ none => by simp [statePairs, chainLength]
  | .mk ts tg vs (some n) => by
    have ih := statePairs_length n
    have hp := chainLength_pos n
    simp only [statePairs, chainLength, List.length_cons, ih]
    omega

theorem statePairs_next : (s : EnergyState) →
    ∀ p ∈ s.statePairs, p.1.next_state = some p.2
  | .mk _ _ _ none => by simp [statePairs]
  | .mk ts tg vs (some n) => by
    intro p hp
    simp only [statePairs, List.mem_cons] at hp
    rcases hp with h | h
    · subst h; rfl
    · exact statePairs_next n p h

theorem lastState_single (ts : ℚ) (tg : String) (vs : List (List ℚ)) :
    (EnergyState.mk ts tg vs none).lastState = EnergyState.mk ts tg vs none := by
  simp [lastState]

end EnergyState

/-! ### Dict lemmas -/

theorem foldlInsert_fresh (k : String) (e : ℚ) :
    (ps : List (ℚ × String)) → (d : List (String × ℚ)) →
    (∀ p ∈ ps, p.2 ≠ k) →
    ps.foldl (fun d p => dictInsert d p.2 p.1) ((k, e) :: d) =
      (k, e) :: ps.foldl (fun d p => dictInsert d p.2 p.1) d
  | [], _, _ => rfl
  | q :: ps, d, h => by
    have hq : k ≠ q.2 := fun hh => (h q (by simp)) hh.symm
    simp only [List.foldl_cons]
    rw [show dictInsert ((k, e) :: d) q.2 q.1
          = (k, e) :: dictInsert d q.2 q.1 by
        simp only [dictInsert]; rw [if_neg hq]]
    exact foldlInsert_fresh k e ps (dictInsert d q.2 q.1)
      (fun p hp => h p (by simp [hp]))

theorem dictOfPairs_zip : (es : List ℚ) → (ks : List String) →
    es.length = ks.length → ks.Nodup →
    dictOfPairs (es.zip ks) = ks.zip es
  | [], [], _, _ => rfl
  | [], _ :: _, h, _ => by simp at h
  | _ :: _, [], h, _ => by simp at h
  | e :: es, k :: ks, h, hnd => by
    have hlen : es.length = ks.length := by simpa using h
    have hk : k ∉ ks := (List.nodup_cons.mp hnd).1
    have hnd' : ks.Nodup := (List.nodup_cons.mp hnd).2
    show dictOfPairs ((e, k) :: es.zip ks) = (k, e) :: ks.zip es
    unfold dictOfPairs
    simp only [List.foldl_cons]
    rw [show dictInsert [] k e = [(k, e)] from rfl]
    rw [foldlInsert_fresh k e (es.zip ks) []
      (fun p hp => fun hh => hk (hh ▸ (List.of_mem_zip hp).2))]
    exact congrArg (List.cons _) (dictOfPairs_zip es ks hlen hnd')

theorem lookupDict_zip : (ks : List String) → (es : List ℚ) → ks.Nodup →
    (i : ℕ) → (h1 : i < ks.length) → (h2 : i < es.length) →
    lookupDict (ks.zip es) (ks.get ⟨i, h1⟩) = some (es.get ⟨i, h2⟩)
  | [], _, _, i, h1, _ => absurd h1 (by simp)
  | _ :: _, [], _, i, _, h2 => absurd h2 (by simp)
  | k :: ks, e :: es, hnd, 0, _, _ => by simp [lookupDict]
  | k :: ks, e :: es, hnd, i+1, h1, h2 => by
    have hk : k ∉ ks := (List.nodup_cons.mp hnd).1
    have h1' : i < ks.length := by simpa using h1
    have h2' : i < es.length := by simpa using h2
    have hmem : ks.get ⟨i, h1'⟩ ∈ ks := ks.get_mem i h1'
    show lookupDict ((k, e) :: ks.zip es) (ks.get ⟨i, h1'⟩)
      = some (es.get ⟨i, h2'⟩)
    simp only [lookupDict]
    have hne : ¬ (k = ks.get ⟨i, h1'⟩) := by
      intro hh
      rw [hh] at hk
      exact hk hmem
    rw [if_neg hne]
    exact lookupDict_zip ks es ((List.nodup_cons.mp hnd).2) i h1' h2'

/-! ### The derived sample of one adjacent pair, and the iteration lemmas -/

theorem drainFrom_eq_map (m : EnergyMeter) : (s : EnergyState) →
    drainFrom m s = s.statePairs.map (sampleOfPair (allDomainKeys m.devices))
  | .mk _ _ _ none => by simp [drainFrom, EnergyState.statePairs]
  | .mk ts tg vs (some n) => by
    simp only [drainFrom, EnergyState.statePairs, EnergyState.compute_duration,
      EnergyState.compute_energy, EnergyState.next_state_mk,
      EnergyState.timestamp_mk, EnergyState.tag_mk, EnergyState.values_mk,
      List.map_cons, sampleOfPair, List.cons.injEq]
    exact ⟨trivial, drainFrom_eq_map m n⟩


theorem drainFrom_eq_once (m : EnergyMeter) : (s : EnergyState) →
    drainFrom m s = specSamplesOnce (allDomainKeys m.devices) s
  | .mk _ _ _ none => by simp [drainFrom, specSamplesOnce]
  | .mk ts tg vs (some n) => by
    simp only [drainFrom, specSamplesOnce, EnergyState.compute_duration,
      EnergyState.compute_energy, EnergyState.next_state_mk,
      EnergyState.timestamp_mk, EnergyState.tag_mk, EnergyState.values_mk,
      List.cons.injEq]
    exact ⟨trivial, drainFrom_eq_once m n⟩

theorem drainFrom_length (m : EnergyMeter) (s : EnergyState) :
    (drainFrom m s).length = s.chainLength - 1 := by
  rw [drainFrom_eq_map, List.length_map, EnergyState.statePairs_length]

/-- `__iter__`/`get_sample` guard bookkeeping: a started meter whose tail tag
is the sentinel iterates successfully. -/
theorem iter_of_stopped (m : EnergyMeter) (fs : EnergyState)
    (hfs : m.first_state = some fs)
    (hstop : fs.lastState.tag = "__stop__") :
    m.iter = Except.ok (drainFrom m fs) := by
  simp [EnergyMeter.iter, hfs, hstop]

theorem iter_of_not_stopped (m : EnergyMeter) (fs : EnergyState)
    (hfs : m.first_state = some fs)
    (hstop : fs.lastState.tag ≠ "__stop__") :
    m.iter = Except.error .notStopped := by
  simp [EnergyMeter.iter, hfs, hstop]

theorem get_sample_of_not_stopped (m : EnergyMeter) (fs : EnergyState)
    (hfs : m.first_state = some fs)
    (hstop : fs.lastState.tag ≠ "__stop__") (t : String) :
    m.get_sample t = Except.error .notStopped := by
  simp [EnergyMeter.get_sample, hfs, hstop]

/-! ### Lifecycle-run lemmas -/

theorem runOps_append (l1 l2 : List MeterOp) : ∀ (m : EnergyMeter),
    runOps m (l1 ++ l2) =
      match runOps m l1 with
      | Except.error e => Except.error e
      | Except.ok m' => runOps m' l2 := by
  induction l1 with
  | nil => intro m; simp [runOps]
  | cons op ops ih =>
    intro m
    simp only [List.cons_append, runOps]
    cases applyOp m op with
    | error e => rfl
    | ok m' => exact ih m'

theorem record_of_started (m : EnergyMeter) (fs : EnergyState)
    (hfs : m.first_state = some fs) (tag : Option String) (ts : ℚ)
    (vals : List (List ℚ)) :
    m.record tag ts vals = Except.ok { m with
      first_state := some (fs.appendLast
        (.mk ts (tag.getD m.default_tag) vals none)) } := by
  simp [EnergyMeter.record, hfs, EnergyMeter.measure_new_state]

theorem stop_of_started (m : EnergyMeter) (fs : EnergyState)
    (hfs : m.first_state = some fs) (ts : ℚ) (vals : List (List ℚ)) :
    m.stop ts vals = Except.ok { m with
      first_state := some (fs.appendLast (.mk ts "__stop__" vals none)) } := by
  simp [EnergyMeter.stop, hfs]

/-- Folding a block of `record` calls over a started meter never fails and
grows the chain by one node per call, leaving devices and default tag
untouched. -/
theorem runRecords (recs : List (Option String × ℚ × List (List ℚ))) :
    ∀ (m : EnergyMeter) (fs : EnergyState), m.first_state = some fs →
    ∃ fs', runOps m (recs.map (fun r => MeterOp.record r.1 r.2.1 r.2.2)) =
        Except.ok { m with first_state := some fs' } ∧
      fs'.chainLength = fs.chainLength + recs.length := by
  induction recs with
  | nil =>
    intro m fs hfs
    refine ⟨fs, ?_, by simp⟩
    simp only [List.map_nil, runOps]
    rw [show ({ m with first_state := some fs } : EnergyMeter) = m by
      cases m; simp_all]
  | cons r recs ih =>
    intro m fs hfs
    have hrec := record_of_started m fs hfs r.1 r.2.1 r.2.2
    obtain ⟨fs', hrun, hlen⟩ := ih
      { m with first_state := some (fs.appendLast
          (.mk r.2.1 (r.1.getD m.default_tag) r.2.2 none)) }
      (fs.appendLast (.mk r.2.1 (r.1.getD m.default_tag) r.2.2 none)) rfl
    refine ⟨fs', ?_, ?_⟩
    · simp only [List.map_cons, runOps, applyOp, hrec]
      exact hrun
    · rw [hlen, EnergyState.chainLength_appendLast]
      simp [EnergyState.chainLength, List.length_cons]
      omega

/-! ### Linear-scan lemmas -/

theorem findTagged_ok_iff (tag : String) :
    ∀ (l : List EnergySample) (s : EnergySample),
    findTagged tag l = Except.ok s ↔
      ∃ pre post, l = pre ++ s :: post ∧ s.tag = tag ∧
        ∀ x ∈ pre, x.tag ≠ tag := by
  intro l
  induction l with
  | nil =>
    intro s
    constructor
    · intro h; simp [findTagged] at h
    · rintro ⟨pre, post, h, -, -⟩
      exact absurd h (by simp)
  | cons a l ih =>
    intro s
    by_cases h : a.tag = tag
    · constructor
      · intro hf
        simp only [findTagged, h, beq_self_eq_true, if_true,
          Except.ok.injEq] at hf
        subst hf
        exact ⟨[], l, rfl, h, by simp⟩
      · rintro ⟨pre, post, heq, hst, hpre⟩
        cases pre with
        | nil =>
          simp only [List.nil_append, List.cons.injEq] at heq
          rw [heq.1]
          simp [findTagged, hst]
        | cons b pre' =>
          rw [List.cons_append, List.cons.injEq] at heq
          exact absurd (heq.1 ▸ h) (hpre b (by simp))
    · have hstep : findTagged tag (a :: l) = findTagged tag l := by
        simp [findTagged, h]
      rw [hstep, ih s]
      constructor
      · rintro ⟨pre, post, heq, hst, hpre⟩
        refine ⟨a :: pre, post, by simp [heq], hst, ?_⟩
        intro x hx
        rcases List.mem_cons.mp hx with hx | hx
        · rw [hx]; exact h
        · exact hpre x hx
      · rintro ⟨pre, post, heq, hst, hpre⟩
        cases pre with
        | nil =>
          simp only [List.nil_append, List.cons.injEq] at heq
          exact absurd (by rw [heq.1]; exact hst) h
        | cons b pre' =>
          rw [List.cons_append, List.cons.injEq] at heq
          exact ⟨pre', post, heq.2, hst, fun x hx => hpre x (by simp [hx])⟩

theorem findTagged_err_iff (tag : String) :
    ∀ (l : List EnergySample),
    findTagged tag l = Except.error .sampleNotFound ↔
      ∀ x ∈ l, x.tag ≠ tag := by
  intro l
  induction l with
  | nil => simp [findTagged]
  | cons a l ih =>
    by_cases h : a.tag = tag
    · simp [findTagged, h]
    · have hstep : findTagged tag (a :: l) = findTagged tag l := by
        simp [findTagged, h]
      rw [hstep, ih]
      constructor
      · intro hall x hx
        rcases List.mem_cons.mp hx with hx | hx
        · rw [hx]; exact h
        · exact hall x hx
      · intro hall x hx
        exact hall x (by simp [hx])

/-! ### Claim theorems -/

/-- C6: for every measurement state with no successor yet, the first
`add_next_state` call succeeds and sets the successor, and a further
`add_next_state` on the resulting state fails with `StateIsNotFinalError`,
leaving the successor link at its first value — a non-empty successor is
never reassigned. -/
theorem c6_add_next_state_set_once (s t u : EnergyState)
    (h : s.next_state = none) :
    ∃ s', s.add_next_state t = Except.ok s' ∧ s'.next_state = some t ∧
      s'.add_next_state u = Except.error .stateIsNotFinal := by
  cases s with
  | mk ts tg vs nx =>
    cases nx with
    | none => exact ⟨.mk ts tg vs (some t), rfl, rfl, rfl⟩
    | some n => simp at h

theorem c6_add_next_state_set_once_witness :
    (EnergyState.mk 0 "a" [[0]] none).add_next_state (.mk 1 "b" [[1]] none) =
      Except.ok (.mk 0 "a" [[0]] (some (.mk 1 "b" [[1]] none))) ∧
    (EnergyState.mk 0 "a" [[0]] (some (.mk 1 "b" [[1]] none))).add_next_state
      (.mk 2 "c" [[2]] none) = Except.error .stateIsNotFinal := by
  obtain ⟨s', h1, h2, h3⟩ := c6_add_next_state_set_once
    (.mk 0 "a" [[0]] none) (.mk 1 "b" [[1]] none) (.mk 2 "c" [[2]] none) rfl
  have hs : s' = .mk 0 "a" [[0]] (some (.mk 1 "b" [[1]] none)) :=
    (Except.ok.inj ((rfl :
      (EnergyState.mk 0 "a" [[0]] none).add_next_state (.mk 1 "b" [[1]] none)
        = Except.ok (.mk 0 "a" [[0]] (some (.mk 1 "b" [[1]] none)))).symm.trans
      h1)).symm
  rw [hs] at h1 h3
  exact ⟨h1, h3⟩

/-- C7: on a controller never started (`first_state` empty), `record`,
`stop`, `get_sample` and iteration each fail with
`EnergyMeterNotStartedError` (and, the operations being pure here, return no
modified controller). -/
theorem c7_not_started (m : EnergyMeter) (h : m.first_state = none)
    (tag : Option String) (ts : ℚ) (vals : List (List ℚ)) (t : String) :
    m.record tag ts vals = Except.error .notStarted ∧
    m.stop ts vals = Except.error .notStarted ∧
    m.get_sample t = Except.error .notStarted ∧
    m.iter = Except.error .notStarted := by
  refine ⟨?_, ?_, ?_, ?_⟩ <;>
    simp [EnergyMeter.record, EnergyMeter.stop, EnergyMeter.get_sample,
      EnergyMeter.iter, h]

theorem c7_not_started_witness :
    EnergyMeter.record ⟨[⟨["D"]⟩], "", none⟩ none 0 [[0]] =
      Except.error .notStarted ∧
    EnergyMeter.stop ⟨[⟨["D"]⟩], "", none⟩ 0 [[0]] =
      Except.error .notStarted ∧
    EnergyMeter.get_sample ⟨[⟨["D"]⟩], "", none⟩ "a" =
      Except.error .notStarted ∧
    EnergyMeter.iter ⟨[⟨["D"]⟩], "", none⟩ =
      Except.error .notStarted :=
  c7_not_started ⟨[⟨["D"]⟩], "", none⟩ rfl none 0 [[0]] "a"

/-- C9: with a successor, `compute_duration` returns
`successor.timestamp - timestamp`; without one (the chain's terminal node),
both `compute_duration` and `compute_energy` fail with
`NoNextStateException`. -/
theorem c9_duration_terminal_guard (s : EnergyState) :
    (∀ n, s.next_state = some n →
      s.compute_duration = Except.ok (n.timestamp - s.timestamp)) ∧
    (s.next_state = none →
      s.compute_duration = Except.error .noNextState ∧
      ∀ keys, s.compute_energy keys = Except.error .noNextState) := by
  refine ⟨fun n hn => ?_, fun hn => ⟨?_, fun keys => ?_⟩⟩
  · simp [EnergyState.compute_duration, hn]
  · simp [EnergyState.compute_duration, hn]
  · simp [EnergyState.compute_energy, hn]

theorem c9_duration_terminal_guard_witness :
    EnergyState.compute_duration
        (.mk 0 "a" [[0]] (some (.mk 2 "b" [[3]] none))) = Except.ok 2 ∧
    EnergyState.compute_duration (.mk 5 "c" [[7]] none) =
      Except.error .noNextState ∧
    EnergyState.compute_energy (.mk 5 "c" [[7]] none) ["D"] =
      Except.error .noNextState :=
  ⟨by
    have h := (c9_duration_terminal_guard
      (.mk 0 "a" [[0]] (some (.mk 2 "b" [[3]] none)))).1
      (.mk 2 "b" [[3]] none) rfl
    simpa using h,
   ((c9_duration_terminal_guard (.mk 5 "c" [[7]] none)).2 rfl).1,
   ((c9_duration_terminal_guard (.mk 5 "c" [[7]] none)).2 rfl).2 ["D"]⟩

/-- C1: on a Stopped trace, the yielded sequence is exactly one sample per
adjacent pair of states, in trace order; each sample's energy mapping is the
one `compute_energy` builds — element-wise deltas `successor.values[i] -
values[i]` concatenated in device order, zipped against the flattened
domain-key list — and when the key list is duplicate-free and its length
matches the delta sequence, each key maps to the delta at the same
position. -/
theorem c1_energy_mapping (m : EnergyMeter) (fs : EnergyState)
    (hfs : m.first_state = some fs)
    (hstop : fs.lastState.tag = "__stop__")
    (hdev : m.devices ≠ []) :
    m.iter = Except.ok
      (fs.statePairs.map (sampleOfPair (allDomainKeys m.devices))) ∧
    ∀ p ∈ fs.statePairs,
      p.1.compute_energy (allDomainKeys m.devices) =
        Except.ok (sampleOfPair (allDomainKeys m.devices) p).energy ∧
      (sampleOfPair (allDomainKeys m.devices) p).energy =
        dictOfPairs ((flatEnergyDeltas p.2.values p.1.values).zip
          (allDomainKeys m.devices)) ∧
      ((allDomainKeys m.devices).Nodup →
        (flatEnergyDeltas p.2.values p.1.values).length =
          (allDomainKeys m.devices).length →
        ∀ i, i < (allDomainKeys m.devices).length →
          lookupDict (sampleOfPair (allDomainKeys m.devices) p).energy
              ((allDomainKeys m.devices).getD i "") =
            some ((flatEnergyDeltas p.2.values p.1.values).getD i 0)) := by
  constructor
  · rw [iter_of_stopped m fs hfs hstop, drainFrom_eq_map]
  · intro p hp
    have hnext := EnergyState.statePairs_next fs p hp
    refine ⟨?_, rfl, ?_⟩
    · simp [EnergyState.compute_energy, hnext, sampleOfPair]
    · intro hnd hlen i hi
      have hi2 : i < (flatEnergyDeltas p.2.values p.1.values).length := by
        omega
      rw [List.getD_eq_get _ _ hi, List.getD_eq_get _ _ hi2]
      show lookupDict (dictOfPairs ((flatEnergyDeltas p.2.values
        p.1.values).zip (allDomainKeys m.devices))) _ = _
      rw [dictOfPairs_zip _ _ hlen hnd]
      exact lookupDict_zip _ _ hnd i hi hi2

theorem c1_energy_mapping_witness :
    EnergyMeter.iter exStopMeter = Except.ok
      [⟨0, "a", 1, [("D", 5)]⟩, ⟨1, "b", 1, [("D", 5)]⟩] ∧
    lookupDict (sampleOfPair (allDomainKeys exStopMeter.devices)
        (.mk 0 "a" [[0]] (some (.mk 1 "b" [[5]]
          (some (.mk 2 "__stop__" [[10]] none)))),
         .mk 1 "b" [[5]] (some (.mk 2 "__stop__" [[10]] none)))).energy
      ((allDomainKeys exStopMeter.devices).getD 0 "") =
    some ((flatEnergyDeltas
      (EnergyState.mk 1 "b" [[5]] (some (.mk 2 "__stop__" [[10]]
        none))).values
      (EnergyState.mk 0 "a" [[0]] (some (.mk 1 "b" [[5]]
        (some (.mk 2 "__stop__" [[10]] none))))).values).getD 0 0) := by
  have h := c1_energy_mapping exStopMeter exStopChain rfl rfl
    (by simp [exStopMeter])
  constructor
  · rw [h.1]
    norm_num [exStopChain, EnergyState.statePairs, sampleOfPair, exStopMeter,
      exDevice, allDomainKeys, flatEnergyDeltas, dictOfPairs, dictInsert]
  · exact (h.2 _ (by simp [exStopChain, EnergyState.statePairs])).2.2
      (by simp [exStopMeter, exDevice, allDomainKeys])
      (by simp [exStopMeter, exDevice, allDomainKeys, flatEnergyDeltas])
      0 (by simp [exStopMeter, exDevice, allDomainKeys])

/-- Concrete evaluation of iterating the example stopped meter. -/
theorem exStopMeter_iter_eval :
    EnergyMeter.iter exStopMeter = Except.ok
      [⟨0, "a", 1, [("D", 5)]⟩, ⟨1, "b", 1, [("D", 5)]⟩] := by
  norm_num [EnergyMeter.iter, exStopMeter, exStopChain, EnergyState.lastState,
    drainFrom, EnergyState.compute_duration, EnergyState.compute_energy,
    allDomainKeys, exDevice, flatEnergyDeltas, dictOfPairs, dictInsert]

/-- C5: the sequence the producer yields — where the source recomputes the
concatenated domain-key list on every `__next__` call — equals the sequence
defined with the key list computed once per producer (the spec's
description): concatenation, in device order, of each device's configured
domain list. -/
theorem c5_domains_once_refinement (m : EnergyMeter) (fs : EnergyState)
    (hfs : m.first_state = some fs)
    (hstop : fs.lastState.tag = "__stop__")
    (hdev : m.devices ≠ []) :
    m.iter = Except.ok (specSamplesOnce (allDomainKeys m.devices) fs) := by
  rw [iter_of_stopped m fs hfs hstop, drainFrom_eq_once]

theorem c5_domains_once_refinement_witness :
    EnergyMeter.iter exStopMeter =
      Except.ok (specSamplesOnce (allDomainKeys exStopMeter.devices)
        exStopChain) ∧
    specSamplesOnce (allDomainKeys exStopMeter.devices) exStopChain =
      [⟨0, "a", 1, [("D", 5)]⟩, ⟨1, "b", 1, [("D", 5)]⟩] := by
  refine ⟨c5_domains_once_refinement exStopMeter exStopChain rfl rfl
    (by simp [exStopMeter]), ?_⟩
  norm_num [specSamplesOnce, exStopChain, exStopMeter, exDevice,
    allDomainKeys, flatEnergyDeltas, dictOfPairs, dictInsert]

/-- C2: a run of exactly one `start()`, then N `record()` calls, then one
`stop()` always succeeds, and iterating the resulting controller yields
exactly N+1 samples — one per adjacent pair of states; the terminal sentinel
node yields none. -/
theorem c2_sample_count (m0 : EnergyMeter) (hdev : m0.devices ≠ [])
    (stag : Option String) (sts : ℚ) (svals : List (List ℚ))
    (recs : List (Option String × ℚ × List (List ℚ)))
    (zts : ℚ) (zvals : List (List ℚ)) :
    ∃ m l,
      runOps m0 (MeterOp.start stag sts svals ::
        (recs.map (fun r => MeterOp.record r.1 r.2.1 r.2.2) ++
          [MeterOp.stop zts zvals])) = Except.ok m ∧
      m.iter = Except.ok l ∧ l.length = recs.length + 1 := by
  obtain ⟨fs2, hrun2, hlen2⟩ := runRecords recs (m0.start stag sts svals)
    (.mk sts (stag.getD m0.default_tag) svals none) rfl
  set node : EnergyState := .mk zts "__stop__" zvals none with hnode
  set m3 : EnergyMeter :=
    { m0.start stag sts svals with first_state := some (fs2.appendLast node) }
    with hm3
  refine ⟨m3, drainFrom m3 (fs2.appendLast node), ?_, ?_, ?_⟩
  · have h1 : runOps m0 (MeterOp.start stag sts svals ::
        (recs.map (fun r => MeterOp.record r.1 r.2.1 r.2.2) ++
          [MeterOp.stop zts zvals]))
        = runOps (m0.start stag sts svals)
            (recs.map (fun r => MeterOp.record r.1 r.2.1 r.2.2) ++
              [MeterOp.stop zts zvals]) := by
      simp [runOps, applyOp]
    rw [h1, runOps_append, hrun2]
    simp [runOps, applyOp, EnergyMeter.stop, hm3]
  · exact iter_of_stopped m3 (fs2.appendLast node) rfl
      (by rw [EnergyState.lastState_appendLast, hnode,
        EnergyState.lastState_single]; rfl)
  · rw [drainFrom_length, EnergyState.chainLength_appendLast, hlen2]
    simp [EnergyState.chainLength, hnode]
    omega

theorem c2_sample_count_witness :
    runOps ⟨[exDevice], "", none⟩
      (MeterOp.start (some "a") 0 [[0]] ::
        ([((some "b" : Option String), (1 : ℚ), [[(5 : ℚ)]])].map
          (fun r => MeterOp.record r.1 r.2.1 r.2.2) ++
         [MeterOp.stop 2 [[10]]])) = Except.ok exStopMeter ∧
    EnergyMeter.iter exStopMeter = Except.ok
      [⟨0, "a", 1, [("D", 5)]⟩, ⟨1, "b", 1, [("D", 5)]⟩] ∧
    ([⟨0, "a", (1 : ℚ), [("D", (5 : ℚ))]⟩, ⟨1, "b", 1, [("D", 5)]⟩] :
      List EnergySample).length =
      [((some "b" : Option String), (1 : ℚ), [[(5 : ℚ)]])].length + 1 := by
  obtain ⟨m, l, hrun, hiter, hlen⟩ := c2_sample_count ⟨[exDevice], "", none⟩
    (by simp) (some "a") 0 [[0]] [(some "b", 1, [[5]])] 2 [[10]]
  have h2 : runOps ⟨[exDevice], "", none⟩
      (MeterOp.start (some "a") 0 [[0]] ::
        ([((some "b" : Option String), (1 : ℚ), [[(5 : ℚ)]])].map
          (fun r => MeterOp.record r.1 r.2.1 r.2.2) ++
         [MeterOp.stop 2 [[10]]])) = Except.ok exStopMeter := rfl
  exact ⟨h2, exStopMeter_iter_eval, by simp⟩

/-- C10: iterating a Stopped trace twice without an intervening `start()`
yields sequences with identical contents — same length and pairwise equal
timestamp, tag, duration and energy — since each iteration request derives
from the same immutable chain. -/
theorem c10_repeatable_iteration (m : EnergyMeter)
    (l1 l2 : List EnergySample)
    (h1 : m.iter = Except.ok l1) (h2 : m.iter = Except.ok l2) :
    l1.length = l2.length ∧
    ∀ i, i < l1.length → i < l2.length →
      (l1.getD i ⟨0, "", 0, []⟩).timestamp =
        (l2.getD i ⟨0, "", 0, []⟩).timestamp ∧
      (l1.getD i ⟨0, "", 0, []⟩).tag = (l2.getD i ⟨0, "", 0, []⟩).tag ∧
      (l1.getD i ⟨0, "", 0, []⟩).duration =
        (l2.getD i ⟨0, "", 0, []⟩).duration ∧
      (l1.getD i ⟨0, "", 0, []⟩).energy = (l2.getD i ⟨0, "", 0, []⟩).energy := by
  rw [h1] at h2
  obtain rfl : l1 = l2 := Except.ok.inj h2
  exact ⟨rfl, fun i _ _ => ⟨rfl, rfl, rfl, rfl⟩⟩

theorem c10_repeatable_iteration_witness :
    ([⟨0, "a", (1 : ℚ), [("D", (5 : ℚ))]⟩, ⟨1, "b", 1, [("D", 5)]⟩] :
        List EnergySample).length =
      ([⟨0, "a", (1 : ℚ), [("D", (5 : ℚ))]⟩, ⟨1, "b", 1, [("D", 5)]⟩] :
        List EnergySample).length ∧
    EnergyMeter.iter exStopMeter = Except.ok
      [⟨0, "a", 1, [("D", 5)]⟩, ⟨1, "b", 1, [("D", 5)]⟩] :=
  ⟨(c10_repeatable_iteration exStopMeter _ _
      exStopMeter_iter_eval exStopMeter_iter_eval).1,
   exStopMeter_iter_eval⟩

/-- C8: on a Stopped trace, `get_sample(tag)` scans the derived sample
sequence in trace order: a success returns exactly the first sample (trace
order = creation order of starting states) whose tag matches — everything
before it in the sequence has a different tag — and it fails with
`SampleNotFoundError` exactly when no sample has the tag. -/
theorem c8_first_match_lookup (m : EnergyMeter) (fs : EnergyState)
    (hfs : m.first_state = some fs)
    (hstop : fs.lastState.tag = "__stop__") (tag : String) :
    m.iter = Except.ok (drainFrom m fs) ∧
    (∀ s, m.get_sample tag = Except.ok s ↔
      ∃ pre post, drainFrom m fs = pre ++ s :: post ∧ s.tag = tag ∧
        ∀ x ∈ pre, x.tag ≠ tag) ∧
    (m.get_sample tag = Except.error .sampleNotFound ↔
      ∀ x ∈ drainFrom m fs, x.tag ≠ tag) := by
  have hgs : m.get_sample tag = findTagged tag (drainFrom m fs) := by
    simp [EnergyMeter.get_sample, hfs, hstop]
  exact ⟨iter_of_stopped m fs hfs hstop,
    fun s => by rw [hgs]; exact findTagged_ok_iff tag _ s,
    by rw [hgs]; exact findTagged_err_iff tag _⟩

theorem c8_first_match_lookup_witness :
    EnergyMeter.get_sample exStopMeter "b" =
      Except.ok ⟨1, "b", 1, [("D", 5)]⟩ ∧
    EnergyMeter.get_sample exStopMeter "zzz" =
      Except.error .sampleNotFound := by
  have hdrain : drainFrom exStopMeter exStopChain =
      [⟨0, "a", 1, [("D", 5)]⟩, ⟨1, "b", 1, [("D", 5)]⟩] := by
    norm_num [exStopMeter, exStopChain, drainFrom,
      EnergyState.compute_duration, EnergyState.compute_energy,
      allDomainKeys, exDevice, flatEnergyDeltas, dictOfPairs, dictInsert]
  constructor
  · refine ((c8_first_match_lookup exStopMeter exStopChain rfl rfl
      "b").2.1 _).mpr ?_
    refine ⟨[⟨0, "a", 1, [("D", 5)]⟩], [], ?_, rfl, ?_⟩
    · rw [hdrain]; rfl
    · intro x hx
      rw [List.mem_singleton] at hx
      rw [hx]
      decide
  · refine ((c8_first_match_lookup exStopMeter exStopChain rfl rfl
      "zzz").2.2).mpr ?_
    rw [hdrain]
    intro x hx
    simp only [List.mem_cons, List.mem_singleton, List.not_mem_nil,
      or_false] at hx
    rcases hx with hx | hx <;> rw [hx] <;> decide

/-- C3 (amended): after `start()` or a successful `record()` whose effective
tag (the supplied tag, or the default when omitted) is not the sentinel
`"__stop__"`, `get_sample` and iteration fail with
`EnergyMeterNotStoppedError`.  (The claim's "regardless of which tags were
passed to record()" is false: recording the sentinel tag itself makes the
Stopped check pass — see the counterexample.) -/
theorem c3_not_stopped_guard (m : EnergyMeter) (tag : Option String)
    (ts : ℚ) (vals : List (List ℚ))
    (htag : tag.getD m.default_tag ≠ "__stop__") :
    ((m.start tag ts vals).iter = Except.error .notStopped ∧
      ∀ t, (m.start tag ts vals).get_sample t = Except.error .notStopped) ∧
    (∀ fs, m.first_state = some fs →
      ∀ m', m.record tag ts vals = Except.ok m' →
        m'.iter = Except.error .notStopped ∧
        ∀ t, m'.get_sample t = Except.error .notStopped) := by
  constructor
  · constructor
    · exact iter_of_not_stopped _ _ rfl (by
        simp only [EnergyMeter.measure_new_state, EnergyState.lastState_single,
          EnergyState.tag_mk]
        exact htag)
    · intro t
      exact get_sample_of_not_stopped _ _ rfl (by
        simp only [EnergyMeter.measure_new_state, EnergyState.lastState_single,
          EnergyState.tag_mk]
        exact htag) t
  · intro fs hfs m' hm'
    rw [record_of_started m fs hfs] at hm'
    obtain rfl := (Except.ok.inj hm').symm
    have htail : ((fs.appendLast (.mk ts (tag.getD m.default_tag) vals
        none)).lastState).tag ≠ "__stop__" := by
      rw [EnergyState.lastState_appendLast, EnergyState.lastState_single]
      simpa using htag
    exact ⟨iter_of_not_stopped _ _ rfl htail,
      fun t => get_sample_of_not_stopped _ _ rfl htail t⟩

theorem c3_not_stopped_guard_witness :
    (EnergyMeter.start ⟨[exDevice], "", none⟩ (some "a") 0 [[0]]).iter =
      Except.error .notStopped ∧
    (EnergyMeter.start ⟨[exDevice], "", none⟩ (some "a") 0 [[0]]).get_sample
      "a" = Except.error .notStopped ∧
    EnergyMeter.iter ⟨[exDevice], "", some (.mk 0 "a" [[0]]
        (some (.mk 1 "r" [[4]] none)))⟩ = Except.error .notStopped := by
  have h := c3_not_stopped_guard ⟨[exDevice], "", none⟩ (some "a") 0 [[0]]
    (by decide)
  have h2 := c3_not_stopped_guard
    ⟨[exDevice], "", some (.mk 0 "a" [[0]] none)⟩ (some "r") 1 [[4]] (by decide)
  have hrec : EnergyMeter.record ⟨[exDevice], "", some (.mk 0 "a" [[0]] none)⟩
      (some "r") 1 [[4]] = Except.ok ⟨[exDevice], "", some (.mk 0 "a" [[0]]
        (some (.mk 1 "r" [[4]] none)))⟩ := rfl
  exact ⟨h.1.1, h.1.2 "a", (h2.2 _ rfl _ hrec).1⟩

/-- C3 counterexample: `start("a")` then `record("__stop__")` — the most
recent state-creating operation is a `record`, yet iteration does not fail
with `EnergyMeterNotStoppedError`: it succeeds and yields a sample, because
the Stopped check only inspects the last state's tag. -/
theorem c3_counterexample :
    (EnergyMeter.start ⟨[exDevice], "", none⟩ (some "a") 0 [[0]]).record
        (some "__stop__") 1 [[4]] =
      Except.ok ⟨[exDevice], "", some (.mk 0 "a" [[0]]
        (some (.mk 1 "__stop__" [[4]] none)))⟩ ∧
    EnergyMeter.iter ⟨[exDevice], "", some (.mk 0 "a" [[0]]
        (some (.mk 1 "__stop__" [[4]] none)))⟩ =
      Except.ok [⟨0, "a", 1, [("D", 4)]⟩] := by
  refine ⟨rfl, ?_⟩
  norm_num [EnergyMeter.iter, EnergyState.lastState, drainFrom,
    EnergyState.compute_duration, EnergyState.compute_energy, allDomainKeys,
    exDevice, flatEnergyDeltas, dictOfPairs, dictInsert]

/-- C4 (amended): a Stopped controller stays Stopped under `stop()` (another
sentinel node is appended), and `get_sample`/iteration do not alter it; but
`record()` keeps it Stopped exactly when the effective tag is the sentinel
`"__stop__"` — a `record()` with any other tag also exits the Stopped state,
not only `start()`. -/
theorem c4_stopped_stability (m : EnergyMeter) (h : m.isStopped = true)
    (ts : ℚ) (vals : List (List ℚ)) (tag : Option String)
    (ts2 : ℚ) (vals2 : List (List ℚ)) :
    (∃ m', m.stop ts vals = Except.ok m' ∧ m'.isStopped = true) ∧
    (∀ m', m.record tag ts2 vals2 = Except.ok m' →
      (m'.isStopped = true ↔ tag.getD m.default_tag = "__stop__")) := by
  obtain ⟨fs, hfs⟩ : ∃ fs, m.first_state = some fs := by
    cases hm : m.first_state with
    | none => rw [EnergyMeter.isStopped, hm] at h; exact absurd h (by simp)
    | some fs => exact ⟨fs, rfl⟩
  constructor
  · refine ⟨_, stop_of_started m fs hfs ts vals, ?_⟩
    rw [EnergyMeter.isStopped]
    simp only [EnergyState.lastState_appendLast, EnergyState.lastState_single]
    simp
  · intro m' hm'
    rw [record_of_started m fs hfs] at hm'
    obtain rfl := (Except.ok.inj hm').symm
    rw [EnergyMeter.isStopped]
    simp only [EnergyState.lastState_appendLast, EnergyState.lastState_single]
    simp

theorem c4_stopped_stability_witness :
    EnergyMeter.stop exStopMeter 3 [[11]] =
      Except.ok ⟨[exDevice], "", some (.mk 0 "a" [[0]] (some (.mk 1 "b" [[5]]
        (some (.mk 2 "__stop__" [[10]]
          (some (.mk 3 "__stop__" [[11]] none)))))))⟩ ∧
    EnergyMeter.isStopped ⟨[exDevice], "", some (.mk 0 "a" [[0]]
      (some (.mk 1 "b" [[5]] (some (.mk 2 "__stop__" [[10]]
        (some (.mk 3 "__stop__" [[11]] none)))))))⟩ = true ∧
    EnergyMeter.isStopped ⟨[exDevice], "", some (.mk 0 "a" [[0]]
      (some (.mk 1 "b" [[5]] (some (.mk 2 "__stop__" [[10]]
        (some (.mk 3 "x" [[11]] none)))))))⟩ = false := by
  have h := c4_stopped_stability exStopMeter rfl 3 [[11]] (some "x") 3 [[11]]
  obtain ⟨m', hs, hstop'⟩ := h.1
  have hse : EnergyMeter.stop exStopMeter 3 [[11]] =
      Except.ok ⟨[exDevice], "", some (.mk 0 "a" [[0]] (some (.mk 1 "b" [[5]]
        (some (.mk 2 "__stop__" [[10]]
          (some (.mk 3 "__stop__" [[11]] none)))))))⟩ := rfl
  have hm' : m' = ⟨[exDevice], "", some (.mk 0 "a" [[0]] (some (.mk 1 "b"
      [[5]] (some (.mk 2 "__stop__" [[10]]
        (some (.mk 3 "__stop__" [[11]] none)))))))⟩ :=
    Except.ok.inj (hs.symm.trans hse)
  refine ⟨hse, by rw [← hm']; exact hstop', ?_⟩
  have hre : EnergyMeter.record exStopMeter (some "x") 3 [[11]] =
      Except.ok ⟨[exDevice], "", some (.mk 0 "a" [[0]] (some (.mk 1 "b" [[5]]
        (some (.mk 2 "__stop__" [[10]] (some (.mk 3 "x" [[11]] none)))))))⟩ :=
    rfl
  have hiff := h.2 _ hre
  cases hB : EnergyMeter.isStopped ⟨[exDevice], "", some (.mk 0 "a" [[0]]
      (some (.mk 1 "b" [[5]] (some (.mk 2 "__stop__" [[10]]
        (some (.mk 3 "x" [[11]] none)))))))⟩ with
  | false => rfl
  | true =>
    rw [hB] at hiff
    have := hiff.mp rfl
    simp [exStopMeter] at this

/-- C4 counterexample: the claim says a Stopped controller remains Stopped
under every operation other than `start()`, but a `record("x")` on the
stopped example meter leaves the last state tagged `"x"`, so the controller
is no longer Stopped. -/
theorem c4_counterexample :
    EnergyMeter.isStopped exStopMeter = true ∧
    EnergyMeter.record exStopMeter (some "x") 3 [[11]] =
      Except.ok ⟨[exDevice], "", some (.mk 0 "a" [[0]] (some (.mk 1 "b" [[5]]
        (some (.mk 2 "__stop__" [[10]] (some (.mk 3 "x" [[11]] none)))))))⟩ ∧
    EnergyMeter.isStopped ⟨[exDevice], "", some (.mk 0 "a" [[0]]
      (some (.mk 1 "b" [[5]] (some (.mk 2 "__stop__" [[10]]
        (some (.mk 3 "x" [[11]] none)))))))⟩ = false :=
  ⟨rfl, rfl, rfl⟩
